import Mathlib

/-!
Shallow embedding of the X3F-to-TIFF converter
(`photoshop_compatible_converter.py` and `x3f_converter_rawpy.py`).

Pixel values are modelled as exact rationals (`ℚ`); the cast
`astype(np.uint16)` is modelled as floor-then-wrap, which is exact for the
nonnegative in-range values arising in the documented input classes.
External libraries (rawpy, tifffile) are modelled as environment inputs:
the decoder either raises (`none`) or yields a buffer, the writer either
raises or succeeds, and the verification readback either raises or yields
a buffer.  Filesystem effects are made explicit as a directory/file store
plus an ordered effect trace.
-/

namespace X3FConv

/-! ### Pixel buffers and the bit-depth normalization step
(`photoshop_compatible_converter.py`, lines 76-80) -/

/-- Dtype tag of a numpy buffer, restricted to the dtypes the converter
distinguishes: `np.uint8`, `np.uint16`, and floating point. -/
inductive DType
  | uint8
  | uint16
  | float
deriving DecidableEq, Repr

/-- An in-memory pixel buffer: a dtype tag plus the (flattened) pixel
values, modelled as exact rationals. -/
structure NDBuffer where
  dtype : DType
  data : List ℚ
deriving DecidableEq, Repr

/-- Maximum of a buffer's values, modelling `rgb.max()` (0 for an empty
buffer, on which numpy would raise). -/
def bufMax : List ℚ → ℚ
  | [] => 0
  | [v] => v
  | v :: w :: rest => max v (bufMax (w :: rest))

/-- Model of `astype(np.uint16)` applied to one value: truncate to an
integer (floor, exact for the nonnegative values arising here) and wrap
into the 16-bit range. -/
def toU16 (q : ℚ) : ℕ := (q.num / (q.den : ℤ)).toNat % 65536

/-- Bit-depth normalization, embedding lines 76-80 of
`photoshop_compatible_converter.py`:

    if rgb.dtype != np.uint16:
        if rgb.max() <= 1.0:
            rgb = (rgb * 65535).astype(np.uint16)
        elif rgb.max() <= 255:
            rgb = (rgb.astype(np.float32) / 255 * 65535).astype(np.uint16)
-/
def normalizeBitDepth (rgb : NDBuffer) : NDBuffer :=
  if rgb.dtype ≠ DType.uint16 then
    if bufMax rgb.data ≤ 1 then
      ⟨DType.uint16, rgb.data.map (fun v => ((toU16 (v * 65535) : ℕ) : ℚ))⟩
    else if bufMax rgb.data ≤ 255 then
      ⟨DType.uint16, rgb.data.map (fun v => ((toU16 (v / 255 * 65535) : ℕ) : ℚ))⟩
    else rgb
  else rgb

/-! ### Tag assembly (`photoshop_compatible_converter.py`, lines 83-98) -/

/-- A local-clock timestamp, the only non-constant input of the tag
assembler (`datetime.now()`). -/
structure Timestamp where
  year : ℕ
  month : ℕ
  day : ℕ
  hour : ℕ
  minute : ℕ
  second : ℕ
deriving DecidableEq, Repr

/-- Zero-pad a number to two digits, as `%m %d %H %M %S` do. -/
def pad2 (n : ℕ) : String := if n < 10 then "0" ++ toString n else toString n

/-- Zero-pad a number to four digits, as `%Y` does. -/
def pad4 (n : ℕ) : String :=
  if n < 10 then "000" ++ toString n
  else if n < 100 then "00" ++ toString n
  else if n < 1000 then "0" ++ toString n
  else toString n

/-- Model of `datetime.now().strftime("%Y:%m:%d %H:%M:%S")`. -/
def strftime_YmdHMS (t : Timestamp) : String :=
  pad4 t.year ++ ":" ++ pad2 t.month ++ ":" ++ pad2 t.day ++ " " ++
    pad2 t.hour ++ ":" ++ pad2 t.minute ++ ":" ++ pad2 t.second

/-- The TIFF tag dictionary built at lines 83-98, one field per key. -/
structure TiffTags where
  Software : String
  Make : String
  Model : String
  DateTime : String
  Orientation : ℕ
  XResolution : ℕ × ℕ
  YResolution : ℕ × ℕ
  ResolutionUnit : ℕ
  ColorSpace : ℕ
  Compression : ℕ
  PhotometricInterpretation : ℕ
  SamplesPerPixel : ℕ
  BitsPerSample : ℕ × ℕ × ℕ
  PlanarConfiguration : ℕ
deriving DecidableEq, Repr

/-- The `tiff_tags` dictionary of `convert_x3f_for_photoshop`: every field
is a literal constant except `DateTime`, which formats the current local
clock. -/
def tiff_tags (now : Timestamp) : TiffTags :=
  { Software := "X3F Converter for Photoshop"
    Make := "SIGMA"
    Model := "DP2 Merrill"
    DateTime := strftime_YmdHMS now
    Orientation := 1
    XResolution := (300, 1)
    YResolution := (300, 1)
    ResolutionUnit := 2
    ColorSpace := 1
    Compression := 1
    PhotometricInterpretation := 2
    SamplesPerPixel := 3
    BitsPerSample := (16, 16, 16)
    PlanarConfiguration := 1 }

/-! ### The conversion pipeline (`convert_x3f_for_photoshop`) -/

/-- An input path, keeping the two pieces the converter uses:
`Path(x3f_path).parent` and `Path(x3f_path).stem`. -/
structure InPath where
  parent : String
  stem : String
deriving DecidableEq, Repr

/-- Filesystem state visible to the converter: the set of directories and
the written files (path, pixel data, embedded tags). -/
structure FS where
  dirs : List String
  files : List (String × NDBuffer × TiffTags)
deriving DecidableEq, Repr

/-- Observable side effects of one conversion, in execution order. -/
inductive Effect
  | errRawpyMissing
  | mkdirParents (d : String)
  | decodeX3F (p : InPath)
  | writeTIFF (p : String)
  | readbackFile (p : String)
deriving DecidableEq, Repr

/-- The converter object; its only state is the `rawpy_available` flag
computed by `_check_rawpy` in `__init__`. -/
structure Converter where
  rawpy_available : Bool
deriving DecidableEq, Repr

/-- Environment of one conversion call: outcomes of the external-library
calls and the current clock.  `decodeResult = none` models
`rawpy.imread`/`postprocess` raising; `writeOk = false` models
`tifffile.imwrite` raising; `readbackResult = none` models the
verification readback raising. -/
structure Env where
  decodeResult : Option NDBuffer
  writeOk : Bool
  readbackResult : Option NDBuffer
  now : Timestamp
deriving DecidableEq, Repr

/-- Result of one conversion call: the returned boolean, the filesystem
after the call, the effect trace, and the verification outcome
(`none` when the verification block was not reached, `some b` when it ran
with `b` recording whether the readback succeeded). -/
structure ConvOut where
  result : Bool
  fs : FS
  trace : List Effect
  verificationOk : Option Bool
deriving DecidableEq, Repr

/-- File extension chosen at lines 45-51: `.tiff` for `tiff`, `.psd` for
`psd`, and `.tiff` again for any other selector. -/
def output_ext (format_type : String) : String :=
  if format_type = "tiff" then ".tiff"
  else if format_type = "psd" then ".psd"
  else ".tiff"

/-- The output path `output_dir / (x3f_path.stem + ext)`. -/
def output_path (dir : String) (x3f_path : InPath) (format_type : String) : String :=
  dir ++ "/" ++ x3f_path.stem ++ output_ext format_type

/-- Model of `output_path.exists()`. -/
def fsHasFile (fs : FS) (p : String) : Bool :=
  fs.files.any (fun q => q.1 = p)

/-- Shallow embedding of `PhotoshopCompatibleConverter.convert_x3f_for_photoshop`.
Mirrors the source control flow: the `rawpy_available` guard, the optional
`output_dir.mkdir(parents=True, exist_ok=True)`, extension selection,
decoding inside the try-block, bit-depth normalization, tag assembly, the
write guarded by `format_type == 'tiff'`, the `output_path.exists()`
check, and the try/except readback whose outcome does not influence the
returned value. -/
def convert_x3f_for_photoshop (c : Converter) (env : Env) (fs : FS)
    (x3f_path : InPath) (output_dir : Option String) (format_type : String) :
    ConvOut :=
  if c.rawpy_available = false then
    { result := false, fs := fs, trace := [Effect.errRawpyMissing], verificationOk := none }
  else
    let dir := output_dir.getD x3f_path.parent
    let fs1 : FS :=
      match output_dir with
      | none => fs
      | some d => { fs with dirs := if d ∈ fs.dirs then fs.dirs else d :: fs.dirs }
    let tr1 : List Effect :=
      match output_dir with
      | none => []
      | some d => [Effect.mkdirParents d]
    let out := output_path dir x3f_path format_type
    match env.decodeResult with
    | none =>
      { result := false, fs := fs1, trace := tr1 ++ [Effect.decodeX3F x3f_path],
        verificationOk := none }
    | some rgb0 =>
      let rgb := normalizeBitDepth rgb0
      let tags := tiff_tags env.now
      if format_type = "tiff" then
        if env.writeOk then
          let fs2 : FS := { fs1 with files := (out, rgb, tags) :: fs1.files }
          if fsHasFile fs2 out then
            { result := true, fs := fs2,
              trace := tr1 ++ [Effect.decodeX3F x3f_path, Effect.writeTIFF out,
                Effect.readbackFile out],
              verificationOk := some env.readbackResult.isSome }
          else
            { result := false, fs := fs2,
              trace := tr1 ++ [Effect.decodeX3F x3f_path, Effect.writeTIFF out],
              verificationOk := none }
        else
          { result := false, fs := fs1, trace := tr1 ++ [Effect.decodeX3F x3f_path],
            verificationOk := none }
      else
        if fsHasFile fs1 out then
          { result := true, fs := fs1,
            trace := tr1 ++ [Effect.decodeX3F x3f_path, Effect.readbackFile out],
            verificationOk := some env.readbackResult.isSome }
        else
          { result := false, fs := fs1, trace := tr1 ++ [Effect.decodeX3F x3f_path],
            verificationOk := none }

/-! ### Module import and the availability flag
(`photoshop_compatible_converter.py`, lines 6-23) -/

/-- Model of `_check_rawpy`: the inner `import rawpy` succeeds exactly
when rawpy is importable in the running process. -/
def check_rawpy (rawpyImportable : Bool) : Bool := rawpyImportable

/-- Model of loading the module and constructing
`PhotoshopCompatibleConverter()`: the unconditional module-level
`import rawpy` (line 8) aborts the load when rawpy is not importable, so
a converter object is only obtained when it is. -/
def importConverterModule (rawpyImportable : Bool) : Option Converter :=
  if rawpyImportable then some { rawpy_available := check_rawpy rawpyImportable }
  else none

/-! ### The batch driver (`x3f_converter_rawpy.py`, `run_conversion`,
lines 296-327) -/

/-- Embedding of the `run_conversion` loop: convert the files one by one
in order, threading the filesystem, incrementing `successful` on each
`True` return; yields the final tally and filesystem. -/
def run_conversion (c : Converter) (envOf : InPath → Env)
    (output_directory : Option String) (format_type : String) :
    List InPath → FS → ℕ → ℕ × FS
  | [], fs, successful => (successful, fs)
  | f :: rest, fs, successful =>
    let out := convert_x3f_for_photoshop c (envOf f) fs f output_directory format_type
    run_conversion c envOf output_directory format_type rest out.fs
      (if out.result then successful + 1 else successful)

/-! ### GUI selected-file list operations
(`x3f_converter_rawpy.py`, lines 160-208) -/

/-- Model of `f.lower().endswith('.x3f')`. -/
def isX3FFile (f : String) : Bool :=
  ".x3f".data.isSuffixOf (f.data.map Char.toLower)

/-- The shared add loop of `on_drop` and `select_files`: append each file
not already present. -/
def addUnique (selected : List String) (files : List String) : List String :=
  files.foldl (fun acc f => if f ∈ acc then acc else acc ++ [f]) selected

/-- Embedding of `on_drop`: filter the dropped paths to `.x3f` files
(case-insensitively); if none remain only a warning is shown, otherwise
each new path is appended. -/
def on_drop (selected : List String) (dropped : List String) : List String :=
  let x3f_files := dropped.filter isX3FFile
  if x3f_files.isEmpty then selected
  else addUnique selected x3f_files

/-- Embedding of `select_files`: append each dialog-returned path not
already present. -/
def select_files (selected : List String) (dialog_files : List String) : List String :=
  addUnique selected dialog_files

/-- Embedding of `clear_files`. -/
def clear_files (_selected : List String) : List String := []

/-- Embedding of `remove_selected_files`: delete the selected indices in
reverse order (the source reverses `curselection()` so that earlier
deletions do not shift later indices). -/
def remove_selected_files (selected : List String) (indices : List ℕ) : List String :=
  indices.reverse.foldl (fun acc i => acc.eraseIdx i) selected

/-! ### Derived predicates and concrete fixtures used by the theorems -/

/-- A buffer that is 16-bit unsigned integer with all values in
`[0, 65535]`. -/
def IsU16Buffer (b : NDBuffer) : Prop :=
  b.dtype = DType.uint16 ∧ ∀ v ∈ b.data, ∃ n : ℕ, v = (n : ℚ) ∧ n ≤ 65535

/-- A buffer that is 8-bit unsigned integer with all values in
`[0, 255]`. -/
def IsUInt8Buffer (b : NDBuffer) : Prop :=
  b.dtype = DType.uint8 ∧ ∀ v ∈ b.data, ∃ n : ℕ, v = (n : ℚ) ∧ n ≤ 255

/-- A floating-point buffer with all values in `[0, 1]`. -/
def IsUnitFloatBuffer (b : NDBuffer) : Prop :=
  b.dtype = DType.float ∧ ∀ v ∈ b.data, 0 ≤ v ∧ v ≤ 1

/-- The three documented decoder-output classes. -/
def DecoderClass (b : NDBuffer) : Prop :=
  IsUnitFloatBuffer b ∨ IsUInt8Buffer b ∨ IsU16Buffer b

/-- A decoder output buffer already in 16-bit form. -/
def sampleBuf : NDBuffer := ⟨DType.uint16, [(12 : ℚ)]⟩

/-- An 8-bit buffer whose maximum exceeds 1. -/
def uint8Sample : NDBuffer := ⟨DType.uint8, [(2 : ℚ)]⟩

/-- An environment in which every external call succeeds. -/
def sampleEnv : Env :=
  { decodeResult := some sampleBuf, writeOk := true,
    readbackResult := some sampleBuf, now := ⟨2024, 5, 6, 7, 8, 9⟩ }

/-- An environment in which the raw decoder raises. -/
def failEnv : Env :=
  { decodeResult := none, writeOk := true,
    readbackResult := none, now := ⟨2024, 5, 6, 7, 8, 9⟩ }

/-- An environment in which decoding and writing succeed but the
verification readback raises. -/
def failReadbackEnv : Env :=
  { decodeResult := some sampleBuf, writeOk := true,
    readbackResult := none, now := ⟨2024, 5, 6, 7, 8, 9⟩ }

/-- A converter whose availability flag is set. -/
def okConverter : Converter := ⟨true⟩

/-- A converter whose availability flag is cleared. -/
def noRawpyConverter : Converter := ⟨false⟩

/-- An empty filesystem. -/
def emptyFS : FS := ⟨[], []⟩

/-- A concrete input path. -/
def samplePath : InPath := ⟨"photos", "IMG001"⟩

/-- Three batch inputs. -/
def files3 : List InPath := [⟨"d", "A"⟩, ⟨"d", "B"⟩, ⟨"d", "C"⟩]

/-- Per-file environments for the three batch inputs: decoding the second
file raises. -/
def envOf3 : InPath → Env := fun p => if p.stem = "B" then failEnv else sampleEnv

/-! ### Helper lemmas -/

lemma bufMax_le {l : List ℚ} {c : ℚ} (hc : 0 ≤ c) (h : ∀ v ∈ l, v ≤ c) :
    bufMax l ≤ c := by
  induction l with
  | nil => simpa [bufMax] using hc
  | cons v rest ih =>
    cases rest with
    | nil => simpa [bufMax] using h v (by simp)
    | cons w ws =>
      show max v (bufMax (w :: ws)) ≤ c
      refine max_le (h v (by simp)) (ih ?_)
      intro u hu
      exact h u (by simp [hu])

lemma toU16_le (q : ℚ) : toU16 q ≤ 65535 :=
  Nat.le_of_lt_succ (Nat.mod_lt _ (by norm_num))

lemma toU16_natCast (n : ℕ) : toU16 ((n : ℕ) : ℚ) = n % 65536 := by
  rw [toU16, Rat.num_natCast, Rat.den_natCast]
  simp

lemma toU16_div255 (n : ℕ) (hn : n ≤ 255) :
    toU16 ((n : ℚ) / 255 * 65535) = n * 257 := by
  have h : ((n : ℚ) / 255 * 65535) = ((n * 257 : ℕ) : ℚ) := by
    push_cast
    field_simp
    ring
  rw [h, toU16_natCast]
  exact Nat.mod_eq_of_lt (by omega)

lemma isU16_map (l : List ℚ) (g : ℚ → ℚ) :
    ∀ v ∈ l.map (fun v => ((toU16 (g v) : ℕ) : ℚ)), ∃ n : ℕ, v = (n : ℚ) ∧ n ≤ 65535 := by
  intro v hv
  simp only [List.mem_map] at hv
  obtain ⟨u, _, rfl⟩ := hv
  exact ⟨toU16 (g u), rfl, toU16_le _⟩

/-! ### Claims C2 and C4: the bit-depth normalization step -/

/-- C2 counterexample: the 8-bit integer buffer `[1]` (values in
`[0, 255]`) is scaled by 65535, producing `[65535]`, not by `65535/255`,
which would produce `[257]`: the first scaling branch tests only the
value range `max ≤ 1.0`, not the dtype. -/
theorem C2_counterexample :
    normalizeBitDepth ⟨DType.uint8, [(1 : ℚ)]⟩ = ⟨DType.uint16, [(65535 : ℚ)]⟩ ∧
    normalizeBitDepth ⟨DType.uint8, [(1 : ℚ)]⟩ ≠ ⟨DType.uint16, [(257 : ℚ)]⟩ := by
  have h : normalizeBitDepth ⟨DType.uint8, [(1 : ℚ)]⟩ = ⟨DType.uint16, [(65535 : ℚ)]⟩ := by
    unfold normalizeBitDepth
    norm_num [bufMax, toU16]
    decide
  refine ⟨h, ?_⟩
  rw [h]
  decide

/-- C2 (amended): the normalization's three branches are keyed on the
value range, not on the dtype: a non-uint16 buffer with maximum ≤ 1 is
scaled by 65535 (even when it is 8-bit integer); a non-uint16 buffer with
maximum in (1, 255] is scaled by 65535/255; uint16 passes through
unchanged.  In particular an 8-bit integer buffer is scaled by
65535/255 = 257 only when its maximum exceeds 1. -/
theorem C2_amended_thm :
    (∀ b : NDBuffer, b.dtype = DType.uint16 → normalizeBitDepth b = b) ∧
    (∀ b : NDBuffer, b.dtype ≠ DType.uint16 → bufMax b.data ≤ 1 →
      normalizeBitDepth b =
        ⟨DType.uint16, b.data.map (fun v => ((toU16 (v * 65535) : ℕ) : ℚ))⟩) ∧
    (∀ b : NDBuffer, b.dtype ≠ DType.uint16 → ¬ bufMax b.data ≤ 1 →
      bufMax b.data ≤ 255 →
      normalizeBitDepth b =
        ⟨DType.uint16, b.data.map (fun v => ((toU16 (v / 255 * 65535) : ℕ) : ℚ))⟩) ∧
    (∀ b : NDBuffer, b.dtype = DType.uint8 →
      (∀ v ∈ b.data, ∃ n : ℕ, v = (n : ℚ) ∧ n ≤ 255) → 1 < bufMax b.data →
      normalizeBitDepth b = ⟨DType.uint16, b.data.map (fun v => v * 257)⟩) := by
  refine ⟨?_, ?_, ?_, ?_⟩
  · intro b h16
    unfold normalizeBitDepth
    rw [if_neg (by simp [h16])]
  · intro b hne hmax
    unfold normalizeBitDepth
    rw [if_pos hne, if_pos hmax]
  · intro b hne hmax h255
    unfold normalizeBitDepth
    rw [if_pos hne, if_neg hmax, if_pos h255]
  · intro b h8 hv hmax
    have hne : b.dtype ≠ DType.uint16 := by simp [h8]
    have hnot1 : ¬ bufMax b.data ≤ 1 := not_le.mpr hmax
    have h255 : bufMax b.data ≤ 255 := by
      refine bufMax_le (by norm_num) ?_
      intro v hvm
      obtain ⟨n, rfl, hn⟩ := hv v hvm
      exact_mod_cast hn
    unfold normalizeBitDepth
    rw [if_pos hne, if_neg hnot1, if_pos h255]
    congr 1
    refine List.map_congr_left ?_
    intro v hvm
    obtain ⟨n, rfl, hn⟩ := hv v hvm
    rw [toU16_div255 n hn]
    push_cast
    ring

/-- C2 witness: the amended branch policy applied to the concrete 8-bit
buffer `[2]`, whose maximum exceeds 1, yields the 65535/255 = 257
scaling. -/
theorem C2_witness :
    (uint8Sample.dtype = DType.uint8 ∧
      (∀ v ∈ uint8Sample.data, ∃ n : ℕ, v = (n : ℚ) ∧ n ≤ 255) ∧
      1 < bufMax uint8Sample.data) ∧
    normalizeBitDepth uint8Sample =
      ⟨DType.uint16, uint8Sample.data.map (fun v => v * 257)⟩ := by
  have h8 : uint8Sample.dtype = DType.uint8 := rfl
  have hv : ∀ v ∈ uint8Sample.data, ∃ n : ℕ, v = (n : ℚ) ∧ n ≤ 255 := by
    intro v hvm
    simp only [uint8Sample, List.mem_singleton] at hvm
    exact ⟨2, by simp [hvm], by norm_num⟩
  have hmax : 1 < bufMax uint8Sample.data := by norm_num [uint8Sample, bufMax]
  exact ⟨⟨h8, hv, hmax⟩, C2_amended_thm.2.2.2 uint8Sample h8 hv hmax⟩

/-- C4: for every decoder buffer in one of the three documented classes
(float in [0,1], 8-bit integer in [0,255], or already 16-bit), the
normalized buffer is 16-bit unsigned integer with all values in
[0, 65535]. -/
theorem C4_normalize_output_u16 (b : NDBuffer) (h : DecoderClass b) :
    IsU16Buffer (normalizeBitDepth b) := by
  rcases h with ⟨hf, hv⟩ | ⟨h8, hv⟩ | ⟨h16, hv⟩
  · have hne : b.dtype ≠ DType.uint16 := by simp [hf]
    have hmax : bufMax b.data ≤ 1 :=
      bufMax_le (by norm_num) (fun v hvm => (hv v hvm).2)
    unfold normalizeBitDepth
    rw [if_pos hne, if_pos hmax]
    exact ⟨rfl, isU16_map b.data _⟩
  · have hne : b.dtype ≠ DType.uint16 := by simp [h8]
    by_cases hmax : bufMax b.data ≤ 1
    · unfold normalizeBitDepth
      rw [if_pos hne, if_pos hmax]
      exact ⟨rfl, isU16_map b.data _⟩
    · have h255 : bufMax b.data ≤ 255 := by
        refine bufMax_le (by norm_num) ?_
        intro v hvm
        obtain ⟨n, rfl, hn⟩ := hv v hvm
        exact_mod_cast hn
      unfold normalizeBitDepth
      rw [if_pos hne, if_neg hmax, if_pos h255]
      exact ⟨rfl, isU16_map b.data _⟩
  · unfold normalizeBitDepth
    rw [if_neg (by simp [h16])]
    exact ⟨h16, hv⟩

/-- C4 witness: the concrete 8-bit buffer `[2]` is in the documented
classes and normalizes to a 16-bit buffer with in-range values. -/
theorem C4_witness :
    DecoderClass uint8Sample ∧ IsU16Buffer (normalizeBitDepth uint8Sample) := by
  have h : DecoderClass uint8Sample := by
    refine Or.inr (Or.inl ⟨rfl, ?_⟩)
    intro v hvm
    simp only [uint8Sample, List.mem_singleton] at hvm
    exact ⟨2, by simp [hvm], by norm_num⟩
  exact ⟨h, C4_normalize_output_u16 uint8Sample h⟩

/-! ### Claim C8: the tag assembler -/

/-- C8: the tag assembler is a pure function of the timestamp: every
field except `DateTime` is the documented literal constant, and
`DateTime` is the clock formatted as `YYYY:MM:DD HH:MM:SS`.  (Purity and
the fixed-clock determinism are inherent: `tiff_tags` is a function of
the timestamp alone.) -/
theorem C8_tags_constant_except_datetime (t : Timestamp) :
    (tiff_tags t).Software = "X3F Converter for Photoshop" ∧
    (tiff_tags t).Make = "SIGMA" ∧
    (tiff_tags t).Model = "DP2 Merrill" ∧
    (tiff_tags t).DateTime = strftime_YmdHMS t ∧
    (tiff_tags t).Orientation = 1 ∧
    (tiff_tags t).XResolution = (300, 1) ∧
    (tiff_tags t).YResolution = (300, 1) ∧
    (tiff_tags t).ResolutionUnit = 2 ∧
    (tiff_tags t).ColorSpace = 1 ∧
    (tiff_tags t).Compression = 1 ∧
    (tiff_tags t).PhotometricInterpretation = 2 ∧
    (tiff_tags t).SamplesPerPixel = 3 ∧
    (tiff_tags t).BitsPerSample = (16, 16, 16) ∧
    (tiff_tags t).PlanarConfiguration = 1 :=
  ⟨rfl, rfl, rfl, rfl, rfl, rfl, rfl, rfl, rfl, rfl, rfl, rfl, rfl, rfl⟩

/-! ### Claim C6: missing decode capability -/

/-- C6: when the availability flag is false the conversion fails
immediately: result `False`, filesystem untouched (no directory created,
no file written), and the only effect is the error report. -/
theorem C6_no_rawpy_no_fs_writes (c : Converter) (env : Env) (fs : FS)
    (x3f_path : InPath) (output_dir : Option String) (format_type : String)
    (h : c.rawpy_available = false) :
    (convert_x3f_for_photoshop c env fs x3f_path output_dir format_type).result = false ∧
    (convert_x3f_for_photoshop c env fs x3f_path output_dir format_type).fs = fs ∧
    (convert_x3f_for_photoshop c env fs x3f_path output_dir format_type).trace =
      [Effect.errRawpyMissing] := by
  unfold convert_x3f_for_photoshop
  rw [if_pos h]
  exact ⟨rfl, rfl, rfl⟩

/-- C6 witness: the flag-false converter on a concrete request leaves the
empty filesystem empty and fails. -/
theorem C6_witness :
    noRawpyConverter.rawpy_available = false ∧
    ((convert_x3f_for_photoshop noRawpyConverter sampleEnv emptyFS samplePath
        (some "out") "tiff").result = false ∧
      (convert_x3f_for_photoshop noRawpyConverter sampleEnv emptyFS samplePath
        (some "out") "tiff").fs = emptyFS ∧
      (convert_x3f_for_photoshop noRawpyConverter sampleEnv emptyFS samplePath
        (some "out") "tiff").trace = [Effect.errRawpyMissing]) :=
  ⟨rfl, C6_no_rawpy_no_fs_writes noRawpyConverter sampleEnv emptyFS samplePath
    (some "out") "tiff" rfl⟩

/-! ### Claim C9: output directory creation precedes decoding -/

/-- C9: with an explicitly supplied output directory and the decoder
available, the directory is created (with parents) before decoding is
attempted, so it persists even when the decode raises and the conversion
fails: the trace is exactly mkdir-then-decode and the directory is in the
final filesystem. -/
theorem C9_mkdir_before_decode (c : Converter) (env : Env) (fs : FS)
    (x3f_path : InPath) (d : String) (format_type : String)
    (hr : c.rawpy_available = true) (hd : env.decodeResult = none) :
    (convert_x3f_for_photoshop c env fs x3f_path (some d) format_type).result = false ∧
    d ∈ (convert_x3f_for_photoshop c env fs x3f_path (some d) format_type).fs.dirs ∧
    (convert_x3f_for_photoshop c env fs x3f_path (some d) format_type).trace =
      [Effect.mkdirParents d, Effect.decodeX3F x3f_path] := by
  refine ⟨?_, ?_, ?_⟩ <;>
      (unfold convert_x3f_for_photoshop; rw [if_neg (by simp [hr])]; simp only [hd]) <;>
    (by_cases hmem : d ∈ fs.dirs <;> simp [hmem])

/-- C9 witness: converting a concrete file into directory `out` with a
raising decoder fails but leaves `out` created. -/
theorem C9_witness :
    (okConverter.rawpy_available = true ∧ failEnv.decodeResult = none) ∧
    ((convert_x3f_for_photoshop okConverter failEnv emptyFS samplePath
        (some "out") "tiff").result = false ∧
      "out" ∈ (convert_x3f_for_photoshop okConverter failEnv emptyFS samplePath
        (some "out") "tiff").fs.dirs ∧
      (convert_x3f_for_photoshop okConverter failEnv emptyFS samplePath
        (some "out") "tiff").trace =
        [Effect.mkdirParents "out", Effect.decodeX3F samplePath]) :=
  ⟨⟨rfl, rfl⟩, C9_mkdir_before_decode okConverter failEnv emptyFS samplePath
    "out" "tiff" rfl rfl⟩

/-! ### Claim C5: post-write verification is diagnostic only -/

/-- C5: once decode and write succeed, the conversion returns success for
every readback outcome (`env.readbackResult` is unconstrained, covering a
raising readback and any mismatched buffer): the verification outcome is
recorded but never overturns the success verdict, and the written file
stays on the filesystem. -/
theorem C5_verification_never_overturns (c : Converter) (env : Env) (fs : FS)
    (x3f_path : InPath) (output_dir : Option String) (rgb0 : NDBuffer)
    (hr : c.rawpy_available = true) (hd : env.decodeResult = some rgb0)
    (hw : env.writeOk = true) :
    (convert_x3f_for_photoshop c env fs x3f_path output_dir "tiff").result = true ∧
    (convert_x3f_for_photoshop c env fs x3f_path output_dir "tiff").verificationOk =
      some env.readbackResult.isSome ∧
    (output_path (output_dir.getD x3f_path.parent) x3f_path "tiff",
        normalizeBitDepth rgb0, tiff_tags env.now) ∈
      (convert_x3f_for_photoshop c env fs x3f_path output_dir "tiff").fs.files := by
  refine ⟨?_, ?_, ?_⟩ <;>
    simp [convert_x3f_for_photoshop, hr, hd, hw, fsHasFile]

/-- C5 witness: with a raising readback, the concrete conversion still
returns success, records the verification failure, and keeps the written
file. -/
theorem C5_witness :
    (okConverter.rawpy_available = true ∧
      failReadbackEnv.decodeResult = some sampleBuf ∧
      failReadbackEnv.writeOk = true) ∧
    ((convert_x3f_for_photoshop okConverter failReadbackEnv emptyFS samplePath
        none "tiff").result = true ∧
      (convert_x3f_for_photoshop okConverter failReadbackEnv emptyFS samplePath
        none "tiff").verificationOk = some failReadbackEnv.readbackResult.isSome ∧
      (output_path ((none : Option String).getD samplePath.parent) samplePath "tiff",
          normalizeBitDepth sampleBuf, tiff_tags failReadbackEnv.now) ∈
        (convert_x3f_for_photoshop okConverter failReadbackEnv emptyFS samplePath
          none "tiff").fs.files) :=
  ⟨⟨rfl, rfl, rfl⟩, C5_verification_never_overturns okConverter failReadbackEnv
    emptyFS samplePath none sampleBuf rfl rfl rfl⟩

/-! ### Claim C7: the rawpy-missing branch is unreachable -/

lemma not_mem_ite_convout (e : Effect) (P : Prop) [Decidable P] (a b : ConvOut)
    (ha : e ∉ a.trace) (hb : e ∉ b.trace) : e ∉ (if P then a else b).trace := by
  by_cases h : P <;> simp [h, ha, hb]

lemma errRawpy_not_mem_trace (c : Converter) (env : Env) (fs : FS)
    (x3f_path : InPath) (output_dir : Option String) (format_type : String)
    (hr : c.rawpy_available = true) :
    Effect.errRawpyMissing ∉
      (convert_x3f_for_photoshop c env fs x3f_path output_dir format_type).trace := by
  unfold convert_x3f_for_photoshop
  rw [if_neg (by simp [hr])]
  cases hd : env.decodeResult with
  | none => cases output_dir <;> simp [hd]
  | some rgb0 =>
    cases output_dir <;>
      by_cases hfmt : format_type = "tiff" <;>
        cases hw : env.writeOk <;>
          simp [hd, hfmt, hw] <;>
            exact not_mem_ite_convout _ _ _ _ (by simp) (by simp)

/-- C7: the module imports rawpy unconditionally at load, so every
successfully constructed converter has `rawpy_available = true` and the
"rawpy not found" branch of `convert_x3f_for_photoshop` can never
execute. -/
theorem C7_rawpy_branch_unreachable (flag : Bool) (c : Converter)
    (h : importConverterModule flag = some c) :
    c.rawpy_available = true ∧
    ∀ (env : Env) (fs : FS) (x3f_path : InPath) (output_dir : Option String)
      (format_type : String),
      Effect.errRawpyMissing ∉
        (convert_x3f_for_photoshop c env fs x3f_path output_dir format_type).trace := by
  have hc : c.rawpy_available = true := by
    cases flag with
    | false => exact absurd h (by simp [importConverterModule])
    | true =>
      have h2 : ({ rawpy_available := check_rawpy true } : Converter) = c := by
        have h3 := h
        unfold importConverterModule at h3
        simpa using h3
      rw [← h2]
      rfl
  exact ⟨hc, fun env fs x3f_path output_dir format_type =>
    errRawpy_not_mem_trace c env fs x3f_path output_dir format_type hc⟩

/-- C7 witness: loading the module with rawpy importable yields the
flag-true converter, whose conversions never emit the rawpy-missing
error. -/
theorem C7_witness :
    importConverterModule true = some okConverter ∧
    (okConverter.rawpy_available = true ∧
      ∀ (env : Env) (fs : FS) (x3f_path : InPath) (output_dir : Option String)
        (format_type : String),
        Effect.errRawpyMissing ∉
          (convert_x3f_for_photoshop okConverter env fs x3f_path output_dir
            format_type).trace) :=
  ⟨rfl, C7_rawpy_branch_unreachable true okConverter rfl⟩

/-! ### Claim C1: non-tiff format selectors -/

/-- C1 counterexample: on the same input and environment the selector
`psd` writes no file and returns failure while the default selector
`tiff` writes the output file and returns success, so a non-`tiff`
selector does not produce the same output as `tiff`. -/
theorem C1_counterexample :
    (convert_x3f_for_photoshop okConverter sampleEnv emptyFS samplePath none
      "psd").result = false ∧
    (convert_x3f_for_photoshop okConverter sampleEnv emptyFS samplePath none
      "psd").fs.files = [] ∧
    (convert_x3f_for_photoshop okConverter sampleEnv emptyFS samplePath none
      "tiff").result = true ∧
    (convert_x3f_for_photoshop okConverter sampleEnv emptyFS samplePath none
      "tiff").fs.files ≠ [] := by
  refine ⟨?_, ?_, ?_, ?_⟩ <;> decide

lemma convout_ite_files (P : Prop) [Decidable P] (a b : ConvOut)
    (l : List (String × NDBuffer × TiffTags))
    (ha : a.fs.files = l) (hb : b.fs.files = l) :
    (if P then a else b).fs.files = l := by
  by_cases h : P <;> simp [h, ha, hb]

/-- C1 (amended): for every selector other than `tiff` the extension
still aliases (`.psd` for `psd`, `.tiff` otherwise), but the write is
guarded by `format_type == 'tiff'`: no file is written, no write effect
occurs, and — whenever the aliased output path does not already exist —
the conversion returns failure instead of producing the `tiff` output. -/
theorem C1_amended_thm (c : Converter) (env : Env) (fs : FS) (x3f_path : InPath)
    (output_dir : Option String) (format_type : String)
    (hfmt : format_type ≠ "tiff") :
    (convert_x3f_for_photoshop c env fs x3f_path output_dir format_type).fs.files =
      fs.files ∧
    (∀ p, Effect.writeTIFF p ∉
      (convert_x3f_for_photoshop c env fs x3f_path output_dir format_type).trace) ∧
    output_ext format_type = (if format_type = "psd" then ".psd" else ".tiff") ∧
    (fsHasFile fs (output_path (output_dir.getD x3f_path.parent) x3f_path
        format_type) = false →
      (convert_x3f_for_photoshop c env fs x3f_path output_dir format_type).result =
        false) := by
  refine ⟨?_, ?_, ?_, ?_⟩
  · cases hc : c.rawpy_available
    · unfold convert_x3f_for_photoshop
      rw [if_pos hc]
    · unfold convert_x3f_for_photoshop
      rw [if_neg (by simp [hc])]
      cases hd : env.decodeResult with
      | none => cases output_dir <;> simp [hd]
      | some rgb0 =>
        cases output_dir <;>
          (simp only [hd]; rw [if_neg hfmt];
            exact convout_ite_files _ _ _ _ rfl rfl)
  · intro p
    cases hc : c.rawpy_available
    · unfold convert_x3f_for_photoshop
      rw [if_pos hc]
      simp
    · unfold convert_x3f_for_photoshop
      rw [if_neg (by simp [hc])]
      cases hd : env.decodeResult with
      | none => cases output_dir <;> simp [hd]
      | some rgb0 =>
        cases output_dir <;>
          (simp only [hd]; rw [if_neg hfmt];
            exact not_mem_ite_convout _ _ _ _ (by simp) (by simp))
  · unfold output_ext
    rw [if_neg hfmt]
  · intro hex
    cases hc : c.rawpy_available
    · unfold convert_x3f_for_photoshop
      rw [if_pos hc]
    · unfold convert_x3f_for_photoshop
      rw [if_neg (by simp [hc])]
      cases hd : env.decodeResult with
      | none => cases output_dir <;> simp [hd]
      | some rgb0 =>
        cases output_dir <;>
          (simp only [hd]; rw [if_neg hfmt]; simp only [fsHasFile] at hex ⊢;
            rw [if_neg (fun hcontra => Bool.false_ne_true (hex.symm.trans hcontra))])

/-- C1 witness: the amended statement instantiated at the selector `psd`
on a concrete request over the empty filesystem. -/
theorem C1_witness :
    ("psd" ≠ "tiff") ∧
    ((convert_x3f_for_photoshop okConverter sampleEnv emptyFS samplePath none
        "psd").fs.files = emptyFS.files ∧
      (∀ p, Effect.writeTIFF p ∉
        (convert_x3f_for_photoshop okConverter sampleEnv emptyFS samplePath none
          "psd").trace) ∧
      output_ext "psd" = (if "psd" = "psd" then ".psd" else ".tiff") ∧
      (fsHasFile emptyFS (output_path ((none : Option String).getD
          samplePath.parent) samplePath "psd") = false →
        (convert_x3f_for_photoshop okConverter sampleEnv emptyFS samplePath none
          "psd").result = false)) := by
  have hne : ("psd" : String) ≠ "tiff" := by decide
  have h := C1_amended_thm okConverter sampleEnv emptyFS samplePath none "psd" hne
  exact ⟨hne, h.1, h.2.1, h.2.2.1, h.2.2.2⟩

/-! ### Claim C3: batch aggregation -/

lemma convert_tiff_result (c : Converter) (env : Env) (fs : FS)
    (x3f_path : InPath) (output_dir : Option String)
    (hr : c.rawpy_available = true) (hw : env.writeOk = true) :
    (convert_x3f_for_photoshop c env fs x3f_path output_dir "tiff").result =
      env.decodeResult.isSome := by
  unfold convert_x3f_for_photoshop
  rw [if_neg (by simp [hr])]
  cases hd : env.decodeResult with
  | none => cases output_dir <;> simp [hd]
  | some rgb0 => cases output_dir <;> simp [hd, hw, fsHasFile]

lemma run_conversion_tally (c : Converter) (envOf : InPath → Env)
    (output_directory : Option String) (hr : c.rawpy_available = true) :
    ∀ (files : List InPath), (∀ f ∈ files, (envOf f).writeOk = true) →
      ∀ (fs : FS) (successful : ℕ),
        (run_conversion c envOf output_directory "tiff" files fs successful).1 =
          successful + files.countP (fun f => ((envOf f).decodeResult).isSome) := by
  intro files
  induction files with
  | nil =>
    intro _ fs s
    simp [run_conversion]
  | cons f rest ih =>
    intro hw fs s
    have hwf : (envOf f).writeOk = true := hw f (by simp)
    have hwr : ∀ g ∈ rest, (envOf g).writeOk = true := fun g hg => hw g (by simp [hg])
    simp only [run_conversion]
    rw [convert_tiff_result c (envOf f) fs f output_directory hr hwf]
    cases hd : (envOf f).decodeResult with
    | none =>
      rw [if_neg (by simp [hd])]
      rw [ih hwr _ s]
      simp [List.countP_cons, hd]
    | some rgb0 =>
      rw [if_pos (by simp [hd])]
      rw [ih hwr _ (s + 1)]
      simp [List.countP_cons, hd]
      omega

lemma countP_some_eq_sub (envOf : InPath → Env) (files : List InPath) :
    files.countP (fun f => ((envOf f).decodeResult).isSome) =
      files.length - files.countP (fun f => ((envOf f).decodeResult).isNone) := by
  induction files with
  | nil => rfl
  | cons f rest ih =>
    have hle : rest.countP (fun f => ((envOf f).decodeResult).isNone) ≤ rest.length :=
      List.countP_le_length _
    cases hd : (envOf f).decodeResult <;>
      (simp [List.countP_cons, hd, ih]; try omega)

/-- C3: the batch loop processes every request in order and continues
past failures: with the decoder available and the writer sound, a batch
of N requests of which k fail to decode tallies exactly N − k
successes. -/
theorem C3_batch_continues_past_failures (c : Converter) (envOf : InPath → Env)
    (output_directory : Option String) (files : List InPath) (fs : FS)
    (hr : c.rawpy_available = true)
    (hw : ∀ f ∈ files, (envOf f).writeOk = true) :
    (run_conversion c envOf output_directory "tiff" files fs 0).1 =
      files.length - files.countP (fun f => ((envOf f).decodeResult).isNone) := by
  rw [run_conversion_tally c envOf output_directory hr files hw fs 0]
  rw [countP_some_eq_sub envOf files]
  omega

/-- C3 witness: three files of which the second fails to decode tally
2 = 3 − 1 successes. -/
theorem C3_witness :
    (okConverter.rawpy_available = true ∧
      (∀ f ∈ files3, (envOf3 f).writeOk = true)) ∧
    (run_conversion okConverter envOf3 (some "out") "tiff" files3 emptyFS 0).1 =
      files3.length - files3.countP (fun f => ((envOf3 f).decodeResult).isNone) ∧
    (run_conversion okConverter envOf3 (some "out") "tiff" files3 emptyFS 0).1 = 2 :=
  ⟨⟨rfl, by decide⟩,
    C3_batch_continues_past_failures okConverter envOf3 (some "out") files3 emptyFS
      rfl (by decide),
    by decide⟩

/-! ### Claim C10: the GUI file list never holds duplicates -/

lemma addUnique_nodup (files : List String) :
    ∀ selected : List String, selected.Nodup → (addUnique selected files).Nodup := by
  induction files with
  | nil => intro s hs; exact hs
  | cons f fs ih =>
    intro s hs
    unfold addUnique at ih ⊢
    rw [List.foldl_cons]
    by_cases hf : f ∈ s
    · rw [if_pos hf]
      exact ih s hs
    · rw [if_neg hf]
      refine ih _ ?_
      simp [List.nodup_append, hs, hf]

lemma eraseFold_nodup (idxs : List ℕ) :
    ∀ s : List String, s.Nodup →
      (idxs.foldl (fun acc i => acc.eraseIdx i) s).Nodup := by
  induction idxs with
  | nil => intro s hs; exact hs
  | cons i is ih =>
    intro s hs
    rw [List.foldl_cons]
    exact ih _ (hs.sublist (List.eraseIdx_sublist s i))

/-- C10: every file-list operation (drag-and-drop add, dialog add,
remove-selected, clear-all) preserves the no-duplicates invariant of the
selected-files list, because both add operations skip paths already
present. -/
theorem C10_no_duplicate_paths (selected dropped dialog_files : List String)
    (indices : List ℕ) (h : selected.Nodup) :
    (on_drop selected dropped).Nodup ∧
    (select_files selected dialog_files).Nodup ∧
    (remove_selected_files selected indices).Nodup ∧
    (clear_files selected).Nodup := by
  refine ⟨?_, ?_, ?_, ?_⟩
  · unfold on_drop
    by_cases he : (dropped.filter isX3FFile).isEmpty
    · rw [if_pos he]
      exact h
    · rw [if_neg he]
      exact addUnique_nodup _ selected h
  · exact addUnique_nodup dialog_files selected h
  · exact eraseFold_nodup indices.reverse selected h
  · exact List.nodup_nil

/-- C10 witness: the invariant at a concrete list, with a drop that
contains an already-present path and a non-X3F file. -/
theorem C10_witness :
    (["photos/a.x3f"] : List String).Nodup ∧
    ((on_drop ["photos/a.x3f"] ["photos/b.X3F", "photos/a.x3f", "notes.txt"]).Nodup ∧
      (select_files ["photos/a.x3f"] ["photos/a.x3f", "photos/c.x3f"]).Nodup ∧
      (remove_selected_files ["photos/a.x3f"] [0]).Nodup ∧
      (clear_files ["photos/a.x3f"]).Nodup) :=
  ⟨by decide, C10_no_duplicate_paths ["photos/a.x3f"]
    ["photos/b.X3F", "photos/a.x3f", "notes.txt"] ["photos/a.x3f", "photos/c.x3f"]
    [0] (by decide)⟩

end X3FConv
